import Mathlib

/-!
Shallow embedding of `src/room.js` from the resonance-audio web SDK.

JS numbers are modelled as exact rationals (`ℚ`).  The transcendental
functions `Math.log` and `Math.sqrt` are passed in as abstract parameters
`log sq : ℚ → ℚ`, so every definition stays computable; `Math.sqrt` applied
to a negative argument yields NaN in JS, which is modelled as `none`.
JS objects with a fixed set of possibly-absent keys are modelled as
structures of `Option` fields (`none` = key absent).
-/

set_option autoImplicit false

namespace Room

/-- The six wall types: `Room.WallTypes` in the source. -/
inductive Wall where
  | left
  | right
  | front
  | back
  | ceiling
  | floor
deriving DecidableEq, Repr

/-- The three dimension types: `Room.DimensionTypes` in the source. -/
inductive Dimension where
  | width
  | height
  | depth
deriving DecidableEq, Repr

/-- `Room.MinVolume = 1e-4`. -/
def MinVolume : ℚ := 0.0001

/-- `Room.AirAbsorbtionCoefficients` (sic, source spelling). -/
def AirAbsorbtionCoefficients : List ℚ :=
  [0.0006, 0.0006, 0.0007, 0.0008, 0.0010, 0.0015, 0.0026, 0.0060, 0.0207]

/-- `Room.DefaultDimensions`: every axis defaults to `0`. -/
def DefaultDimensions : Dimension → ℚ
  | _ => 0

/-- `Room.DefaultMaterials`: every wall defaults to the material `"Transparent"`. -/
def DefaultMaterials : Wall → String
  | _ => "Transparent"

/-- `Room.MaterialCoefficients`: the fixed library of 9-band absorption vectors. -/
def MaterialCoefficients : String → Option (List ℚ)
  | "Transparent" =>
      some [1.000, 1.000, 1.000, 1.000, 1.000, 1.000, 1.000, 1.000, 1.000]
  | "AcousticCeilingTiles" =>
      some [0.672, 0.675, 0.700, 0.660, 0.720, 0.920, 0.880, 0.750, 1.000]
  | "BrickBare" =>
      some [0.030, 0.030, 0.030, 0.030, 0.030, 0.040, 0.050, 0.070, 0.140]
  | "BrickPainted" =>
      some [0.006, 0.007, 0.010, 0.010, 0.020, 0.020, 0.020, 0.030, 0.060]
  | "ConcreteBlockCoarse" =>
      some [0.360, 0.360, 0.360, 0.440, 0.310, 0.290, 0.390, 0.250, 0.500]
  | "ConcreteBlockPainted" =>
      some [0.092, 0.090, 0.100, 0.050, 0.060, 0.070, 0.090, 0.080, 0.160]
  | "CurtainHeavy" =>
      some [0.073, 0.106, 0.140, 0.350, 0.550, 0.720, 0.700, 0.650, 1.000]
  | "FiberGlassInsulation" =>
      some [0.193, 0.220, 0.220, 0.820, 0.990, 0.990, 0.990, 0.990, 1.000]
  | "GlassThin" =>
      some [0.180, 0.169, 0.180, 0.060, 0.040, 0.030, 0.020, 0.020, 0.040]
  | "GlassThick" =>
      some [0.350, 0.350, 0.350, 0.250, 0.180, 0.120, 0.070, 0.040, 0.080]
  | "Grass" =>
      some [0.050, 0.050, 0.150, 0.250, 0.400, 0.550, 0.600, 0.600, 0.600]
  | "LinoleumOnConcrete" =>
      some [0.020, 0.020, 0.020, 0.030, 0.030, 0.030, 0.030, 0.020, 0.040]
  | "Marble" =>
      some [0.010, 0.010, 0.010, 0.010, 0.010, 0.010, 0.020, 0.020, 0.0400]
  | "Metal" =>
      some [0.030, 0.035, 0.040, 0.040, 0.050, 0.050, 0.050, 0.070, 0.090]
  | "ParquetOnConcrete" =>
      some [0.028, 0.030, 0.040, 0.040, 0.070, 0.060, 0.060, 0.070, 0.140]
  | "PlasterRough" =>
      some [0.017, 0.018, 0.020, 0.030, 0.040, 0.050, 0.040, 0.030, 0.060]
  | "PlasterSmooth" =>
      some [0.011, 0.012, 0.013, 0.015, 0.020, 0.030, 0.040, 0.050, 0.100]
  | "PlywoodPanel" =>
      some [0.400, 0.340, 0.280, 0.220, 0.170, 0.090, 0.100, 0.110, 0.220]
  | "PolishedConcreteOrTile" =>
      some [0.008, 0.008, 0.010, 0.010, 0.015, 0.020, 0.020, 0.020, 0.040]
  | "Sheetrock" =>
      some [0.290, 0.279, 0.290, 0.100, 0.050, 0.040, 0.070, 0.090, 0.180]
  | "WaterOrIceSurface" =>
      some [0.006, 0.006, 0.008, 0.008, 0.013, 0.015, 0.020, 0.025, 0.050]
  | "WoodCeiling" =>
      some [0.150, 0.147, 0.150, 0.110, 0.100, 0.070, 0.060, 0.070, 0.140]
  | "WoodPanel" =>
      some [0.280, 0.280, 0.280, 0.220, 0.170, 0.090, 0.100, 0.110, 0.220]
  | "Uniform" =>
      some [0.500, 0.500, 0.500, 0.500, 0.500, 0.500, 0.500, 0.500, 0.500]
  | _ => none

/-- `Room.MaterialCoefficients[Room.DefaultMaterials[key]]`: the default
coefficient vector for a wall (always defined, the `getD []` is dead). -/
def defaultWallCoefficients (w : Wall) : List ℚ :=
  (MaterialCoefficients (DefaultMaterials w)).getD []

/-- A possibly-partial per-wall coefficient map (a JS object whose keys are
wall names; `none` = key absent). -/
structure Coefficients where
  left : Option (List ℚ)
  right : Option (List ℚ)
  front : Option (List ℚ)
  back : Option (List ℚ)
  ceiling : Option (List ℚ)
  floor : Option (List ℚ)
deriving DecidableEq, Repr

/-- Key lookup on a coefficient map. -/
def Coefficients.get : Coefficients → Wall → Option (List ℚ)
  | c, .left => c.left
  | c, .right => c.right
  | c, .front => c.front
  | c, .back => c.back
  | c, .ceiling => c.ceiling
  | c, .floor => c.floor

/-- The empty coefficient map `{}`. -/
def Coefficients.empty : Coefficients :=
  ⟨none, none, none, none, none, none⟩

/-- A possibly-partial dimensions map. -/
structure Dimensions where
  width : Option ℚ
  height : Option ℚ
  depth : Option ℚ
deriving DecidableEq, Repr

/-- Key lookup on a dimensions map. -/
def Dimensions.get : Dimensions → Dimension → Option ℚ
  | d, .width => d.width
  | d, .height => d.height
  | d, .depth => d.depth

/-- The empty dimensions map `{}`. -/
def Dimensions.empty : Dimensions :=
  ⟨none, none, none⟩

/-- `Room.sanitizeCoefficients`: replace an absent argument by `{}`, then fill
every absent wall key with the wall's default coefficient vector; keys already
present are kept untouched. -/
def sanitizeCoefficients (coefficients : Option Coefficients) : Coefficients :=
  let c := coefficients.getD Coefficients.empty
  { left := some (c.left.getD (defaultWallCoefficients .left))
    right := some (c.right.getD (defaultWallCoefficients .right))
    front := some (c.front.getD (defaultWallCoefficients .front))
    back := some (c.back.getD (defaultWallCoefficients .back))
    ceiling := some (c.ceiling.getD (defaultWallCoefficients .ceiling))
    floor := some (c.floor.getD (defaultWallCoefficients .floor)) }

/-- `Room.sanitizeDimensions`: replace an absent argument by `{}`, then fill
every absent axis with `Room.DefaultDimensions` (i.e. `0`); keys already
present are kept untouched. -/
def sanitizeDimensions (dimensions : Option Dimensions) : Dimensions :=
  let d := dimensions.getD Dimensions.empty
  { width := some (d.width.getD (DefaultDimensions .width))
    height := some (d.height.getD (DefaultDimensions .height))
    depth := some (d.depth.getD (DefaultDimensions .depth)) }

/-- A caller's wall→material-name assignment: a JS object with the six wall
keys plus the pseudo-key `'walls'`, all possibly absent. -/
structure Materials where
  left : Option String
  right : Option String
  front : Option String
  back : Option String
  ceiling : Option String
  floor : Option String
  walls : Option String
deriving DecidableEq, Repr

/-- Wall-key lookup on a material assignment. -/
def Materials.getWall : Materials → Wall → Option String
  | m, .left => m.left
  | m, .right => m.right
  | m, .front => m.front
  | m, .back => m.back
  | m, .ceiling => m.ceiling
  | m, .floor => m.floor

/-- `Room.DefaultMaterials` viewed as an assignment object (it has the six
wall keys, all `'Transparent'`, and no `'walls'` key). -/
def DefaultMaterialsAssignment : Materials :=
  { left := some "Transparent", right := some "Transparent"
    front := some "Transparent", back := some "Transparent"
    ceiling := some "Transparent", floor := some "Transparent"
    walls := none }

/-- The printable name of a wall key. -/
def wallKeyName : Wall → String
  | .left => "left"
  | .right => "right"
  | .front => "front"
  | .back => "back"
  | .ceiling => "ceiling"
  | .floor => "floor"

/-- The in-place wall-alias expansion step of `Room.getCoefficientsFromMaterials`:
if `'walls' in materials`, write its value over every wall key except
`'ceiling'` and `'floor'`.  In the source this mutates the caller's object;
here the mutated object is returned. -/
def expandWalls (m : Materials) : Materials :=
  match m.walls with
  | none => m
  | some v => { m with left := some v, right := some v, front := some v, back := some v }

/-- The body of the per-wall assignment loop of
`Room.getCoefficientsFromMaterials`: returns the wall's final coefficient
vector together with the `Utils.log` messages it emits. -/
def resolveWall (m : Materials) (w : Wall) : List ℚ × List String :=
  match m.getWall w with
  | some name =>
    match MaterialCoefficients name with
    | some v => (v, [])
    | none =>
      (defaultWallCoefficients w,
        ["Material \"" ++ name ++ "\" on Wall \"" ++ wallKeyName w ++
          "\" not found. Using \"" ++ DefaultMaterials w ++ "\"."])
  | none =>
    (defaultWallCoefficients w,
      ["Wall \"" ++ wallKeyName w ++ "\" is not defined and will be ignored."])

/-- The always-complete coefficient set built by the resolver: every wall key
present with a vector. -/
structure ResolvedCoefficients where
  left : List ℚ
  right : List ℚ
  front : List ℚ
  back : List ℚ
  ceiling : List ℚ
  floor : List ℚ
deriving DecidableEq, Repr

/-- Key lookup on a resolved coefficient set. -/
def ResolvedCoefficients.get : ResolvedCoefficients → Wall → List ℚ
  | c, .left => c.left
  | c, .right => c.right
  | c, .front => c.front
  | c, .back => c.back
  | c, .ceiling => c.ceiling
  | c, .floor => c.floor

/-- `Room.getCoefficientsFromMaterials`.  Besides the coefficient set the model
returns the final state of the `materials` object (the source mutates the
caller's object in the wall-alias step) and the list of logged diagnostics,
in wall order `left, right, front, back, ceiling, floor`. -/
def getCoefficientsFromMaterials (materials : Option Materials) :
    ResolvedCoefficients × Materials × List String :=
  let m := expandWalls (materials.getD DefaultMaterialsAssignment)
  let rL := resolveWall m .left
  let rR := resolveWall m .right
  let rF := resolveWall m .front
  let rB := resolveWall m .back
  let rC := resolveWall m .ceiling
  let rFl := resolveWall m .floor
  (⟨rL.1, rR.1, rF.1, rB.1, rC.1, rFl.1⟩, m,
    rL.2 ++ rR.2 ++ rF.2 ++ rB.2 ++ rC.2 ++ rFl.2)

/-- `Math.sqrt` with an abstract square root `sq` on nonnegative arguments;
a negative argument yields NaN, modelled as `none`. -/
def jsSqrt (sq : ℚ → ℚ) (x : ℚ) : Option ℚ :=
  if x < 0 then none else some (sq x)

/-- The per-wall averaging loop of `Room.computeReflectionCoefficients`:
starting from `0`, add the band values of the averaging window
`startingBand .. startingBand + numAveragingBands - 1`, then divide by
`numAveragingBands`. -/
def wallAverage (bands : List ℚ) (startingBand numAveragingBands : ℕ) : ℚ :=
  ((List.range numAveragingBands).foldl
    (fun acc j => acc + bands.getD (j + startingBand) 0) 0) / (numAveragingBands : ℚ)

/-- The per-wall scalar reflection results (a value may be NaN = `none`). -/
structure ReflectionCoefficients where
  left : Option ℚ
  right : Option ℚ
  front : Option ℚ
  back : Option ℚ
  ceiling : Option ℚ
  floor : Option ℚ
deriving DecidableEq, Repr

/-- Key lookup on a reflection-coefficient set. -/
def ReflectionCoefficients.get : ReflectionCoefficients → Wall → Option ℚ
  | c, .left => c.left
  | c, .right => c.right
  | c, .front => c.front
  | c, .back => c.back
  | c, .ceiling => c.ceiling
  | c, .floor => c.floor

/-- `Room.computeReflectionCoefficients` body for one wall:
`Math.sqrt(1 - average)`. -/
def reflectionForWall (sq : ℚ → ℚ) (startingBand numAveragingBands : ℕ)
    (c : Coefficients) (w : Wall) : Option ℚ :=
  jsSqrt sq (1 - wallAverage ((c.get w).getD []) startingBand numAveragingBands)

/-- `Room.computeReflectionCoefficients`.  The averaging-window constants
`Globals.DefaultReflectionsStartingBand` and
`Globals.DefaultReflectionsNumAveragingBands` come from `globals.js`,
absent from the sources; modelled from the spec as explicit configuration
parameters (a starting band index and a count). -/
def computeReflectionCoefficients (sq : ℚ → ℚ)
    (startingBand numAveragingBands : ℕ)
    (coefficients : Option Coefficients) : ReflectionCoefficients :=
  let c := sanitizeCoefficients coefficients
  { left := reflectionForWall sq startingBand numAveragingBands c .left
    right := reflectionForWall sq startingBand numAveragingBands c .right
    front := reflectionForWall sq startingBand numAveragingBands c .front
    back := reflectionForWall sq startingBand numAveragingBands c .back
    ceiling := reflectionForWall sq startingBand numAveragingBands c .ceiling
    floor := reflectionForWall sq startingBand numAveragingBands c .floor }

/-- Modelled from the spec: `Globals.NumReverbBands` (from `globals.js`,
absent from the sources) is the number of reverb bands, 9. -/
def NumReverbBands : ℕ := 9

/-- Modelled from the spec: `Globals.TwentyFourLog10` (from `globals.js`,
absent from the sources) is `24 * ln 10`, expressed with the abstract `log`. -/
def TwentyFourLog10 (log : ℚ → ℚ) : ℚ := 24 * log 10

/-- Band `i` of a wall's vector in a sanitized coefficient map. -/
def bandAt (c : Coefficients) (w : Wall) (i : ℕ) : ℚ :=
  ((c.get w).getD []).getD i 0

/-- The volume product `dimensions['width'] * dimensions['height'] *
dimensions['depth']` read off a (sanitized) dimensions map. -/
def volumeOf (d : Dimensions) : ℚ :=
  d.width.getD 0 * d.height.getD 0 * d.depth.getD 0

/-- `Room.computeRT60Secs`.  `Globals.DefaultSpeedOfSound` is modelled from
the spec as the parameter `defaultSpeedOfSound`; `Math.log` is the abstract
parameter `log`. -/
def computeRT60Secs (log : ℚ → ℚ) (defaultSpeedOfSound : ℚ)
    (dimensions : Option Dimensions) (coefficients : Option Coefficients)
    (speedOfSound : Option ℚ) : List ℚ :=
  let dims := sanitizeDimensions dimensions
  let coeffs := sanitizeCoefficients coefficients
  let c := speedOfSound.getD defaultSpeedOfSound
  let k := TwentyFourLog10 log / c
  let volume := volumeOf dims
  if volume < MinVolume then
    List.replicate NumReverbBands 0
  else
    let leftRightArea := dims.width.getD 0 * dims.height.getD 0
    let floorCeilingArea := dims.width.getD 0 * dims.depth.getD 0
    let frontBackArea := dims.depth.getD 0 * dims.height.getD 0
    let totalArea := 2 * (leftRightArea + floorCeilingArea + frontBackArea)
    List.ofFn (fun i : Fin NumReverbBands =>
      let absorbtionArea :=
        (bandAt coeffs .left i.val + bandAt coeffs .right i.val) * leftRightArea +
        (bandAt coeffs .floor i.val + bandAt coeffs .ceiling i.val) * floorCeilingArea +
        (bandAt coeffs .front i.val + bandAt coeffs .back i.val) * frontBackArea
      let meanAbsorbtionArea := absorbtionArea / totalArea
      if meanAbsorbtionArea ≤ 0.5 then
        k * volume /
          (absorbtionArea + 4 * AirAbsorbtionCoefficients.getD i.val 0 * volume)
      else
        k * volume /
          (-totalArea * log (1 - meanAbsorbtionArea) +
            4 * AirAbsorbtionCoefficients.getD i.val 0 * volume))

/-! ### Helper lemmas -/

/-- Every vector stored in the material library has exactly 9 bands. -/
lemma MaterialCoefficients_length {n : String} {v : List ℚ}
    (h : MaterialCoefficients n = some v) : v.length = 9 := by
  unfold MaterialCoefficients at h
  split at h <;> cases h <;> rfl

/-- The default vector of every wall has exactly 9 bands. -/
lemma defaultWallCoefficients_length (w : Wall) :
    (defaultWallCoefficients w).length = 9 := by
  cases w <;> rfl

/-- The wall component of the resolver's coefficient output is the first
component of `resolveWall` on the expanded assignment. -/
lemma getCoefficients_fst_get (m : Option Materials) (w : Wall) :
    (getCoefficientsFromMaterials m).1.get w =
      (resolveWall (expandWalls (m.getD DefaultMaterialsAssignment)) w).1 := by
  cases w <;> rfl

/-- Any diagnostic produced by one wall's `resolveWall` appears in the
resolver's full log. -/
lemma resolveWall_log_mem (m : Materials) (w : Wall) (s : String)
    (hs : s ∈ (resolveWall (expandWalls m) w).2) :
    s ∈ (getCoefficientsFromMaterials (some m)).2.2 := by
  cases w <;>
    simp only [getCoefficientsFromMaterials, Option.getD_some, List.mem_append] <;>
    tauto

/-- Failure of a wall's material lookup, covering both the absent-key case
and the unknown-name case. -/
def lookupFails (m : Materials) (w : Wall) : Prop :=
  ∀ n, m.getWall w = some n → MaterialCoefficients n = none

/-! ### Sanitizer claims -/

/-- C8: `sanitizeCoefficients` is idempotent — applying it twice to any
(possibly absent or partial) coefficient map yields the same result as
applying it once. -/
theorem sanitizeCoefficients_idempotent (coefficients : Option Coefficients) :
    sanitizeCoefficients (some (sanitizeCoefficients coefficients)) =
      sanitizeCoefficients coefficients := by
  simp [sanitizeCoefficients]

/-- C9: the sanitizers perform no validation and never replace a supplied
entry: the sanitized value of every key is exactly the input's value when the
key is present (whatever its value or vector length), and the default
(default-material vector, resp. `0`) only when the key is absent — which is
precisely what `Option.getD` expresses. -/
theorem sanitize_no_validation (c : Coefficients) (d : Dimensions)
    (w : Wall) (a : Dimension) :
    (sanitizeCoefficients (some c)).get w =
      some ((c.get w).getD (defaultWallCoefficients w)) ∧
    (sanitizeDimensions (some d)).get a =
      some ((d.get a).getD (DefaultDimensions a)) := by
  exact ⟨by cases w <;> rfl, by cases a <;> rfl⟩

/-! ### Resolver claims -/

/-- A concrete assignment using only the `'walls'` pseudo-key. -/
def wallsOnlyAssignment : Materials :=
  ⟨none, none, none, none, none, none, some "BrickBare"⟩

/-- C2 counterexample: on an assignment containing the pseudo-key `'walls'`,
the resolver does NOT leave the caller's assignment object unchanged — the
wall-alias expansion writes into it, so the final state of the object differs
from the input. -/
theorem getCoefficients_mutates_counterexample :
    (getCoefficientsFromMaterials (some wallsOnlyAssignment)).2.1 ≠
      wallsOnlyAssignment := by
  decide

/-- C2 amended: the wall-alias expansion is performed in place on the caller's
assignment: after a call whose assignment has `'walls'`, the caller's object
has left/right/front/back overwritten with the `'walls'` value (ceiling,
floor and `'walls'` untouched).  The mutation is idempotent, so repeating the
call on the now-mutated assignment returns identical results. -/
theorem getCoefficients_expansion_in_place (m : Materials) (v : String)
    (hw : m.walls = some v) :
    (getCoefficientsFromMaterials (some m)).2.1 =
      { m with left := some v, right := some v, front := some v, back := some v } ∧
    getCoefficientsFromMaterials
        (some ((getCoefficientsFromMaterials (some m)).2.1)) =
      getCoefficientsFromMaterials (some m) := by
  constructor
  · simp [getCoefficientsFromMaterials, expandWalls, hw]
  · simp [getCoefficientsFromMaterials, expandWalls, hw]

/-- C2 witness. -/
theorem getCoefficients_expansion_in_place_witness :
    wallsOnlyAssignment.walls = some "BrickBare" ∧
    ((getCoefficientsFromMaterials (some wallsOnlyAssignment)).2.1 =
      { wallsOnlyAssignment with
          left := some "BrickBare", right := some "BrickBare"
          front := some "BrickBare", back := some "BrickBare" } ∧
     getCoefficientsFromMaterials
         (some ((getCoefficientsFromMaterials (some wallsOnlyAssignment)).2.1)) =
       getCoefficientsFromMaterials (some wallsOnlyAssignment)) :=
  ⟨rfl, getCoefficients_expansion_in_place wallsOnlyAssignment "BrickBare" rfl⟩

/-- C5: for every input assignment (absent, empty, partial, or with unknown
names), the resolver returns a coefficient set with every wall carrying a
9-band vector, and any wall whose lookup fails carries its default
(Transparent) vector. -/
theorem getCoefficients_complete (m : Option Materials) (w : Wall) :
    ((getCoefficientsFromMaterials m).1.get w).length = 9 ∧
    (lookupFails (expandWalls (m.getD DefaultMaterialsAssignment)) w →
      (getCoefficientsFromMaterials m).1.get w = defaultWallCoefficients w) := by
  rw [getCoefficients_fst_get m w]
  unfold resolveWall
  split
  next name hn =>
    split
    next v hv =>
      refine ⟨MaterialCoefficients_length hv, fun hf => ?_⟩
      rw [hf name hn] at hv
      cases hv
    next hv =>
      exact ⟨defaultWallCoefficients_length w, fun _ => rfl⟩
  next hn =>
    exact ⟨defaultWallCoefficients_length w, fun _ => rfl⟩

/-- C5 witness. -/
theorem getCoefficients_complete_witness :
    ((getCoefficientsFromMaterials
        (some ⟨some "Quartz", none, none, none, none, none, none⟩)).1.get .left).length = 9 ∧
    (getCoefficientsFromMaterials
        (some ⟨some "Quartz", none, none, none, none, none, none⟩)).1.get .left =
      defaultWallCoefficients .left :=
  ⟨(getCoefficients_complete
      (some ⟨some "Quartz", none, none, none, none, none, none⟩) .left).1,
   (getCoefficients_complete
      (some ⟨some "Quartz", none, none, none, none, none, none⟩) .left).2
     (by intro n hn
         have hq : n = "Quartz" := by
           simpa [expandWalls, Materials.getWall] using hn.symm
         subst hq
         rfl)⟩

/-- C6: an assignment whose `'walls'` pseudo-key names a library material
resolves exactly left/right/front/back to that material's vector (overwriting
any individually specified values for those walls), while ceiling and floor
resolve exactly as they would without the pseudo-key. -/
theorem walls_pseudo_key (m : Materials) (name : String) (v : List ℚ)
    (hw : m.walls = some name) (hv : MaterialCoefficients name = some v) :
    (getCoefficientsFromMaterials (some m)).1.left = v ∧
    (getCoefficientsFromMaterials (some m)).1.right = v ∧
    (getCoefficientsFromMaterials (some m)).1.front = v ∧
    (getCoefficientsFromMaterials (some m)).1.back = v ∧
    (getCoefficientsFromMaterials (some m)).1.ceiling =
      (getCoefficientsFromMaterials (some { m with walls := none })).1.ceiling ∧
    (getCoefficientsFromMaterials (some m)).1.floor =
      (getCoefficientsFromMaterials (some { m with walls := none })).1.floor := by
  refine ⟨?_, ?_, ?_, ?_, ?_, ?_⟩ <;>
    simp [getCoefficientsFromMaterials, expandWalls, hw, resolveWall,
      Materials.getWall, hv]

/-- C6 witness: `'walls'` set to BrickBare with an individually assigned left
wall and ceiling; left/right/front/back become BrickBare, ceiling keeps its
individual material. -/
theorem walls_pseudo_key_witness :
    (⟨some "Uniform", none, none, none, some "Metal", none,
        some "BrickBare"⟩ : Materials).walls = some "BrickBare" ∧
    MaterialCoefficients "BrickBare" =
      some [0.030, 0.030, 0.030, 0.030, 0.030, 0.040, 0.050, 0.070, 0.140] ∧
    ((getCoefficientsFromMaterials
        (some ⟨some "Uniform", none, none, none, some "Metal", none,
          some "BrickBare"⟩)).1.left =
      [0.030, 0.030, 0.030, 0.030, 0.030, 0.040, 0.050, 0.070, 0.140] ∧
     (getCoefficientsFromMaterials
        (some ⟨some "Uniform", none, none, none, some "Metal", none,
          some "BrickBare"⟩)).1.right =
      [0.030, 0.030, 0.030, 0.030, 0.030, 0.040, 0.050, 0.070, 0.140] ∧
     (getCoefficientsFromMaterials
        (some ⟨some "Uniform", none, none, none, some "Metal", none,
          some "BrickBare"⟩)).1.front =
      [0.030, 0.030, 0.030, 0.030, 0.030, 0.040, 0.050, 0.070, 0.140] ∧
     (getCoefficientsFromMaterials
        (some ⟨some "Uniform", none, none, none, some "Metal", none,
          some "BrickBare"⟩)).1.back =
      [0.030, 0.030, 0.030, 0.030, 0.030, 0.040, 0.050, 0.070, 0.140] ∧
     (getCoefficientsFromMaterials
        (some ⟨some "Uniform", none, none, none, some "Metal", none,
          some "BrickBare"⟩)).1.ceiling =
      (getCoefficientsFromMaterials
        (some ⟨some "Uniform", none, none, none, some "Metal", none,
          none⟩)).1.ceiling ∧
     (getCoefficientsFromMaterials
        (some ⟨some "Uniform", none, none, none, some "Metal", none,
          some "BrickBare"⟩)).1.floor =
      (getCoefficientsFromMaterials
        (some ⟨some "Uniform", none, none, none, some "Metal", none,
          none⟩)).1.floor) :=
  ⟨rfl, rfl,
   walls_pseudo_key
     ⟨some "Uniform", none, none, none, some "Metal", none, some "BrickBare"⟩
     "BrickBare"
     [0.030, 0.030, 0.030, 0.030, 0.030, 0.040, 0.050, 0.070, 0.140] rfl rfl⟩

/-- C7: on an unknown material name the resolver keeps the wall's default
vector and logs a diagnostic naming the wall, the rejected material and the
default used; on a wall absent from the (expanded) assignment it keeps the
default vector and logs that the wall is undefined. -/
theorem resolver_diagnostics (m : Materials) (w : Wall) :
    (∀ n, (expandWalls m).getWall w = some n → MaterialCoefficients n = none →
      (getCoefficientsFromMaterials (some m)).1.get w = defaultWallCoefficients w ∧
      ("Material \"" ++ n ++ "\" on Wall \"" ++ wallKeyName w ++
        "\" not found. Using \"" ++ DefaultMaterials w ++ "\".") ∈
        (getCoefficientsFromMaterials (some m)).2.2) ∧
    ((expandWalls m).getWall w = none →
      (getCoefficientsFromMaterials (some m)).1.get w = defaultWallCoefficients w ∧
      ("Wall \"" ++ wallKeyName w ++ "\" is not defined and will be ignored.") ∈
        (getCoefficientsFromMaterials (some m)).2.2) := by
  constructor
  · intro n hn hnone
    have hrw : resolveWall (expandWalls m) w =
        (defaultWallCoefficients w,
          ["Material \"" ++ n ++ "\" on Wall \"" ++ wallKeyName w ++
            "\" not found. Using \"" ++ DefaultMaterials w ++ "\"."]) := by
      simp only [resolveWall, hn, hnone]
    refine ⟨?_, ?_⟩
    · rw [getCoefficients_fst_get (some m) w, Option.getD_some, hrw]
    · exact resolveWall_log_mem m w _ (by rw [hrw]; exact List.mem_singleton.mpr rfl)
  · intro hn
    have hrw : resolveWall (expandWalls m) w =
        (defaultWallCoefficients w,
          ["Wall \"" ++ wallKeyName w ++ "\" is not defined and will be ignored."]) := by
      simp only [resolveWall, hn]
    refine ⟨?_, ?_⟩
    · rw [getCoefficients_fst_get (some m) w, Option.getD_some, hrw]
    · exact resolveWall_log_mem m w _ (by rw [hrw]; exact List.mem_singleton.mpr rfl)

/-- C7 witness: left wall requests the unknown material `"Quartz"`, right wall
is absent; both keep the default and both diagnostics appear in the log. -/
theorem resolver_diagnostics_witness :
    ((getCoefficientsFromMaterials
        (some ⟨some "Quartz", none, none, none, none, none, none⟩)).1.get .left =
      defaultWallCoefficients .left ∧
     ("Material \"" ++ "Quartz" ++ "\" on Wall \"" ++ wallKeyName .left ++
       "\" not found. Using \"" ++ DefaultMaterials .left ++ "\".") ∈
       (getCoefficientsFromMaterials
         (some ⟨some "Quartz", none, none, none, none, none, none⟩)).2.2) ∧
    ((getCoefficientsFromMaterials
        (some ⟨some "Quartz", none, none, none, none, none, none⟩)).1.get .right =
      defaultWallCoefficients .right ∧
     ("Wall \"" ++ wallKeyName .right ++ "\" is not defined and will be ignored.") ∈
       (getCoefficientsFromMaterials
         (some ⟨some "Quartz", none, none, none, none, none, none⟩)).2.2) :=
  ⟨(resolver_diagnostics
      ⟨some "Quartz", none, none, none, none, none, none⟩ .left).1
     "Quartz" rfl rfl,
   (resolver_diagnostics
      ⟨some "Quartz", none, none, none, none, none, none⟩ .right).2 rfl⟩

/-! ### Reflection-coefficient claims -/

/-- Follows the spec's words (§4.3): reflectance from average absorption via
`r = sqrt(max(0, 1 - a))`. -/
def specReflectionCoefficient (sq : ℚ → ℚ) (a : ℚ) : ℚ :=
  sq (max 0 (1 - a))

/-- Reading a wall of the reflection output is `Math.sqrt(1 - average)` on
that wall's averaging window. -/
lemma computeReflectionCoefficients_get (sq : ℚ → ℚ)
    (startingBand numAveragingBands : ℕ) (coefficients : Option Coefficients)
    (w : Wall) :
    (computeReflectionCoefficients sq startingBand numAveragingBands
        coefficients).get w =
      jsSqrt sq (1 - wallAverage
        (((sanitizeCoefficients coefficients).get w).getD [])
        startingBand numAveragingBands) := by
  cases w <;> rfl

/-- A coefficient map whose every wall has absorption 2 in every band. -/
def allTwosCoefficients : Coefficients :=
  ⟨some (List.replicate 9 2), some (List.replicate 9 2), some (List.replicate 9 2),
   some (List.replicate 9 2), some (List.replicate 9 2), some (List.replicate 9 2)⟩

/-- C4 counterexample: with average absorption 2 on the averaging window, the
code computes `Math.sqrt(1 - 2)` — NaN (modelled `none`) — rather than the
spec's clamped `sqrt(max(0, 1-a))`, so the result is not a well-defined
scalar in [0,1] for arbitrary input absorption values. -/
theorem reflection_clamp_counterexample :
    (computeReflectionCoefficients id 4 3 (some allTwosCoefficients)).get .left =
      none ∧
    (computeReflectionCoefficients id 4 3 (some allTwosCoefficients)).get .left ≠
      some (specReflectionCoefficient id (wallAverage (List.replicate 9 2) 4 3)) := by
  have hsan : ((sanitizeCoefficients (some allTwosCoefficients)).get .left).getD [] =
      List.replicate 9 2 := rfl
  have havg : wallAverage (List.replicate 9 2) 4 3 = 2 := by
    norm_num [wallAverage, List.range_succ]
  have hnone : (computeReflectionCoefficients id 4 3
      (some allTwosCoefficients)).get .left = none := by
    rw [computeReflectionCoefficients_get, hsan, havg]
    unfold jsSqrt
    rw [if_pos (by norm_num : (1 : ℚ) - 2 < 0)]
  exact ⟨hnone, by rw [hnone]; exact fun h => Option.noConfusion h⟩

/-- C4 amended: for a positive averaging-band count and a wall whose window
average `a` lies in [0,1] (as it does for all library materials), the result
equals the spec's `sqrt(max(0, 1-a))` and — for any square root mapping [0,1]
into [0,1] — is a scalar in [0,1]; `a = 1` yields 0 and `a = 0` yields 1.
When `a > 1` the unclamped code yields NaN instead. -/
theorem reflection_coefficients_amended (sq : ℚ → ℚ)
    (startingBand numAveragingBands : ℕ) (coefficients : Option Coefficients)
    (w : Wall)
    (_hcount : 0 < numAveragingBands)
    (ha0 : 0 ≤ wallAverage (((sanitizeCoefficients coefficients).get w).getD [])
      startingBand numAveragingBands)
    (ha1 : wallAverage (((sanitizeCoefficients coefficients).get w).getD [])
      startingBand numAveragingBands ≤ 1)
    (hsq : ∀ x, 0 ≤ x → x ≤ 1 → 0 ≤ sq x ∧ sq x ≤ 1)
    (hsq0 : sq 0 = 0) (hsq1 : sq 1 = 1) :
    (computeReflectionCoefficients sq startingBand numAveragingBands
        coefficients).get w =
      some (specReflectionCoefficient sq
        (wallAverage (((sanitizeCoefficients coefficients).get w).getD [])
          startingBand numAveragingBands)) ∧
    (∀ r, (computeReflectionCoefficients sq startingBand numAveragingBands
        coefficients).get w = some r → 0 ≤ r ∧ r ≤ 1) ∧
    (wallAverage (((sanitizeCoefficients coefficients).get w).getD [])
        startingBand numAveragingBands = 1 →
      (computeReflectionCoefficients sq startingBand numAveragingBands
        coefficients).get w = some 0) ∧
    (wallAverage (((sanitizeCoefficients coefficients).get w).getD [])
        startingBand numAveragingBands = 0 →
      (computeReflectionCoefficients sq startingBand numAveragingBands
        coefficients).get w = some 1) := by
  rw [computeReflectionCoefficients_get]
  set a := wallAverage (((sanitizeCoefficients coefficients).get w).getD [])
    startingBand numAveragingBands with ha
  have hnn : ¬ (1 - a < 0) := by linarith
  refine ⟨?_, ?_, ?_, ?_⟩
  · unfold jsSqrt specReflectionCoefficient
    rw [if_neg hnn, max_eq_right (by linarith)]
  · intro r hr
    unfold jsSqrt at hr
    rw [if_neg hnn] at hr
    cases hr
    exact hsq (1 - a) (by linarith) (by linarith)
  · intro h1
    unfold jsSqrt
    rw [if_neg hnn, h1]
    norm_num [hsq0]
  · intro h0
    unfold jsSqrt
    rw [if_neg hnn, h0]
    norm_num [hsq1]

/-- For an absent coefficient map, the left wall's full-window average is the
Transparent average, 1. -/
lemma transparentWindowAverage :
    wallAverage (((sanitizeCoefficients none).get .left).getD []) 0 9 = 1 := by
  norm_num [wallAverage, List.range_succ, sanitizeCoefficients, Coefficients.get,
    Coefficients.empty, defaultWallCoefficients, DefaultMaterials,
    MaterialCoefficients]

/-- C4 witness: identity as the abstract square root, window = all 9 bands,
absent coefficient map (all walls Transparent, window average exactly 1). -/
theorem reflection_coefficients_amended_witness :
    (0 : ℕ) < 9 ∧
    0 ≤ wallAverage (((sanitizeCoefficients none).get .left).getD []) 0 9 ∧
    wallAverage (((sanitizeCoefficients none).get .left).getD []) 0 9 ≤ 1 ∧
    ((computeReflectionCoefficients id 0 9 none).get .left =
      some (specReflectionCoefficient id
        (wallAverage (((sanitizeCoefficients none).get .left).getD []) 0 9)) ∧
     (∀ r, (computeReflectionCoefficients id 0 9 none).get .left = some r →
        0 ≤ r ∧ r ≤ 1) ∧
     (wallAverage (((sanitizeCoefficients none).get .left).getD []) 0 9 = 1 →
       (computeReflectionCoefficients id 0 9 none).get .left = some 0) ∧
     (wallAverage (((sanitizeCoefficients none).get .left).getD []) 0 9 = 0 →
       (computeReflectionCoefficients id 0 9 none).get .left = some 1)) :=
  ⟨by decide, by rw [transparentWindowAverage]; norm_num,
   by rw [transparentWindowAverage],
   reflection_coefficients_amended id 0 9 none .left (by decide)
     (by rw [transparentWindowAverage]; norm_num)
     (by rw [transparentWindowAverage])
     (fun x hx hx1 => ⟨hx, hx1⟩) rfl rfl⟩

/-! ### RT60 claims -/

/-- Follows the spec's words (§4.4): band `i` of the RT60 profile for a room
of the given dimensions, per-wall band coefficients, air-absorption table and
speed of sound, with `k = 24·ln(10)/speedOfSound`, Sabine for mean absorption
`≤ 0.5` (inclusive) and Eyring otherwise. -/
def specRT60Band (log : ℚ → ℚ) (speedOfSound width height depth : ℚ)
    (coeff : Wall → ℕ → ℚ) (airAbsorption : ℕ → ℚ) (i : ℕ) : ℚ :=
  let volume := width * height * depth
  let leftRightArea := width * height
  let floorCeilingArea := width * depth
  let frontBackArea := depth * height
  let totalArea := 2 * (leftRightArea + floorCeilingArea + frontBackArea)
  let absorptionArea :=
    (coeff .left i + coeff .right i) * leftRightArea +
    (coeff .floor i + coeff .ceiling i) * floorCeilingArea +
    (coeff .front i + coeff .back i) * frontBackArea
  let meanAbsorption := absorptionArea / totalArea
  let k := 24 * log 10 / speedOfSound
  if meanAbsorption ≤ 0.5 then
    k * volume / (absorptionArea + 4 * airAbsorption i * volume)
  else
    k * volume / (-totalArea * log (1 - meanAbsorption) + 4 * airAbsorption i * volume)

/-- Below the volume threshold the profile is all zeros. -/
lemma computeRT60Secs_zero_of_small_volume (log : ℚ → ℚ)
    (defaultSpeedOfSound : ℚ) (dimensions : Option Dimensions)
    (coefficients : Option Coefficients) (speedOfSound : Option ℚ)
    (h : volumeOf (sanitizeDimensions dimensions) < MinVolume) :
    computeRT60Secs log defaultSpeedOfSound dimensions coefficients
      speedOfSound = List.replicate 9 0 := by
  simp only [computeRT60Secs]
  rw [if_pos h]
  rfl

/-- Above the volume threshold, `computeRT60Secs` computes exactly the
spec-side band formula on every band. -/
lemma computeRT60Secs_eq_spec (log : ℚ → ℚ) (defaultSpeedOfSound : ℚ)
    (dimensions : Option Dimensions) (coefficients : Option Coefficients)
    (speedOfSound : Option ℚ)
    (h : ¬ volumeOf (sanitizeDimensions dimensions) < MinVolume) :
    computeRT60Secs log defaultSpeedOfSound dimensions coefficients speedOfSound =
      List.ofFn (fun i : Fin NumReverbBands =>
        specRT60Band log (speedOfSound.getD defaultSpeedOfSound)
          ((sanitizeDimensions dimensions).width.getD 0)
          ((sanitizeDimensions dimensions).height.getD 0)
          ((sanitizeDimensions dimensions).depth.getD 0)
          (fun w j => bandAt (sanitizeCoefficients coefficients) w j)
          (fun j => AirAbsorbtionCoefficients.getD j 0) i.val) := by
  simp only [computeRT60Secs]
  rw [if_neg h]
  rfl

/-- C1: for any input whose (sanitized) volume is at least `MinVolume`, each
band of the 9-band profile is the Sabine value when the band's mean
absorption is ≤ 0.5 (inclusive) and the Eyring value otherwise, with
`k = 24·ln(10)/speedOfSound` and the absorption area weighting each opposing
wall pair's summed coefficients by its area. -/
theorem computeRT60Secs_band_formula (log : ℚ → ℚ) (defaultSpeedOfSound : ℚ)
    (dimensions : Option Dimensions) (coefficients : Option Coefficients)
    (speedOfSound : Option ℚ)
    (h : MinVolume ≤ volumeOf (sanitizeDimensions dimensions)) :
    computeRT60Secs log defaultSpeedOfSound dimensions coefficients speedOfSound =
      List.ofFn (fun i : Fin NumReverbBands =>
        specRT60Band log (speedOfSound.getD defaultSpeedOfSound)
          ((sanitizeDimensions dimensions).width.getD 0)
          ((sanitizeDimensions dimensions).height.getD 0)
          ((sanitizeDimensions dimensions).depth.getD 0)
          (fun w j => bandAt (sanitizeCoefficients coefficients) w j)
          (fun j => AirAbsorbtionCoefficients.getD j 0) i.val) :=
  computeRT60Secs_eq_spec log defaultSpeedOfSound dimensions coefficients
    speedOfSound (not_lt.mpr h)

/-- C1 witness: a concrete 1×2×3 room with Transparent walls. -/
theorem computeRT60Secs_band_formula_witness :
    MinVolume ≤ volumeOf (sanitizeDimensions
      (some ⟨some 1, some 2, some 3⟩)) ∧
    computeRT60Secs (fun _ => 7) 340 (some ⟨some 1, some 2, some 3⟩) none
        (some 343) =
      List.ofFn (fun i : Fin NumReverbBands =>
        specRT60Band (fun _ => 7) ((some (343 : ℚ)).getD 340)
          ((sanitizeDimensions (some ⟨some 1, some 2, some 3⟩)).width.getD 0)
          ((sanitizeDimensions (some ⟨some 1, some 2, some 3⟩)).height.getD 0)
          ((sanitizeDimensions (some ⟨some 1, some 2, some 3⟩)).depth.getD 0)
          (fun w j => bandAt (sanitizeCoefficients none) w j)
          (fun j => AirAbsorbtionCoefficients.getD j 0) i.val) :=
  ⟨by norm_num [MinVolume, volumeOf, sanitizeDimensions],
   computeRT60Secs_band_formula (fun _ => 7) 340 (some ⟨some 1, some 2, some 3⟩)
     none (some 343) (by norm_num [MinVolume, volumeOf, sanitizeDimensions])⟩

/-- C3: whenever the (sanitized) volume is strictly below `MinVolume`
(including all-zero and absent dimensions), the RT60 profile is the 9-element
all-zero vector regardless of coefficients and speed of sound; at volume
exactly `MinVolume` the normal band computation is performed. -/
theorem computeRT60Secs_degenerate_volume (log : ℚ → ℚ) (defaultSpeedOfSound : ℚ)
    (dimensions : Option Dimensions) (coefficients : Option Coefficients)
    (speedOfSound : Option ℚ) :
    (volumeOf (sanitizeDimensions dimensions) < MinVolume →
      computeRT60Secs log defaultSpeedOfSound dimensions coefficients
        speedOfSound = List.replicate 9 0) ∧
    (volumeOf (sanitizeDimensions dimensions) = MinVolume →
      computeRT60Secs log defaultSpeedOfSound dimensions coefficients
          speedOfSound =
        List.ofFn (fun i : Fin NumReverbBands =>
          specRT60Band log (speedOfSound.getD defaultSpeedOfSound)
            ((sanitizeDimensions dimensions).width.getD 0)
            ((sanitizeDimensions dimensions).height.getD 0)
            ((sanitizeDimensions dimensions).depth.getD 0)
            (fun w j => bandAt (sanitizeCoefficients coefficients) w j)
            (fun j => AirAbsorbtionCoefficients.getD j 0) i.val)) := by
  constructor
  · intro h
    exact computeRT60Secs_zero_of_small_volume log defaultSpeedOfSound
      dimensions coefficients speedOfSound h
  · intro h
    exact computeRT60Secs_eq_spec log defaultSpeedOfSound dimensions
      coefficients speedOfSound (by rw [h]; exact lt_irrefl MinVolume)

/-- C3 witness: the all-zero room returns the all-zero profile, and a room of
volume exactly `MinVolume` performs the normal computation. -/
theorem computeRT60Secs_degenerate_volume_witness :
    (volumeOf (sanitizeDimensions (some ⟨some 0, some 0, some 0⟩)) < MinVolume ∧
     computeRT60Secs (fun _ => 0) 340 (some ⟨some 0, some 0, some 0⟩) none none =
       List.replicate 9 0) ∧
    (volumeOf (sanitizeDimensions (some ⟨some MinVolume, some 1, some 1⟩)) =
        MinVolume ∧
     computeRT60Secs (fun _ => 0) 340 (some ⟨some MinVolume, some 1, some 1⟩)
         none none =
       List.ofFn (fun i : Fin NumReverbBands =>
         specRT60Band (fun _ => 0) ((none : Option ℚ).getD 340)
           ((sanitizeDimensions (some ⟨some MinVolume, some 1, some 1⟩)).width.getD 0)
           ((sanitizeDimensions (some ⟨some MinVolume, some 1, some 1⟩)).height.getD 0)
           ((sanitizeDimensions (some ⟨some MinVolume, some 1, some 1⟩)).depth.getD 0)
           (fun w j => bandAt (sanitizeCoefficients none) w j)
           (fun j => AirAbsorbtionCoefficients.getD j 0) i.val)) :=
  ⟨⟨by norm_num [MinVolume, volumeOf, sanitizeDimensions],
    (computeRT60Secs_degenerate_volume (fun _ => 0) 340
      (some ⟨some 0, some 0, some 0⟩) none none).1
      (by norm_num [MinVolume, volumeOf, sanitizeDimensions])⟩,
   ⟨by norm_num [MinVolume, volumeOf, sanitizeDimensions],
    (computeRT60Secs_degenerate_volume (fun _ => 0) 340
      (some ⟨some MinVolume, some 1, some 1⟩) none none).2
      (by norm_num [MinVolume, volumeOf, sanitizeDimensions])⟩⟩

/-- The number of strictly negative axes in a dimensions map. -/
def negativeDimensionCount (d : Dimensions) : ℕ :=
  (if d.width.getD 0 < 0 then 1 else 0) +
  (if d.height.getD 0 < 0 then 1 else 0) +
  (if d.depth.getD 0 < 0 then 1 else 0)

/-- A product of three rationals an odd number of which are negative is
non-positive (it is 0, not negative, when a non-negative factor is 0). -/
lemma odd_negatives_nonpos (x y z : ℚ)
    (hodd : ((if x < 0 then 1 else 0) + (if y < 0 then 1 else 0) +
      (if z < 0 then 1 else 0)) % 2 = 1) :
    x * y * z ≤ 0 := by
  by_cases hx : x < 0 <;> by_cases hy : y < 0 <;> by_cases hz : z < 0 <;>
    simp [hx, hy, hz] at hodd <;>
    first
      | nlinarith [mul_pos_of_neg_of_neg hx hy]
      | nlinarith [mul_nonneg (le_of_not_lt hy) (le_of_not_lt hz)]
      | nlinarith [mul_nonneg (le_of_not_lt hx) (le_of_not_lt hz)]
      | nlinarith [mul_nonneg (le_of_not_lt hx) (le_of_not_lt hy)]

/-- C10 counterexample: the dimensions (-1, 0, 1) have exactly one negative
axis, yet the product volume is 0, not negative — the claim's "the product
volume is negative" fails at this input (the all-zero profile is still
returned, via `volume = 0 < MinVolume`). -/
theorem rt60_negative_dims_counterexample :
    negativeDimensionCount
      (sanitizeDimensions (some ⟨some (-1), some 0, some 1⟩)) = 1 ∧
    ¬ volumeOf (sanitizeDimensions (some ⟨some (-1), some 0, some 1⟩)) < 0 ∧
    computeRT60Secs (fun _ => 0) 340 (some ⟨some (-1), some 0, some 1⟩)
        none none = List.replicate 9 0 := by
  refine ⟨by norm_num [negativeDimensionCount, sanitizeDimensions],
    by norm_num [volumeOf, sanitizeDimensions], ?_⟩
  exact computeRT60Secs_zero_of_small_volume (fun _ => 0) 340
    (some ⟨some (-1), some 0, some 1⟩) none none
    (by norm_num [MinVolume, volumeOf, sanitizeDimensions])

/-- C10 amended: for every dimensions input with an odd number of strictly
negative axes, the volume is non-positive (hence below `MinVolume`), so
`computeRT60Secs` returns the all-zero 9-band profile rather than an error or
NaN/negative reverberation times. -/
theorem rt60_odd_negative_dims (log : ℚ → ℚ) (defaultSpeedOfSound : ℚ)
    (dimensions : Option Dimensions) (coefficients : Option Coefficients)
    (speedOfSound : Option ℚ)
    (hodd : negativeDimensionCount (sanitizeDimensions dimensions) % 2 = 1) :
    volumeOf (sanitizeDimensions dimensions) ≤ 0 ∧
    volumeOf (sanitizeDimensions dimensions) < MinVolume ∧
    computeRT60Secs log defaultSpeedOfSound dimensions coefficients
      speedOfSound = List.replicate 9 0 := by
  have hle : volumeOf (sanitizeDimensions dimensions) ≤ 0 :=
    odd_negatives_nonpos _ _ _ hodd
  have hlt : volumeOf (sanitizeDimensions dimensions) < MinVolume :=
    lt_of_le_of_lt hle (by norm_num [MinVolume])
  exact ⟨hle, hlt, computeRT60Secs_zero_of_small_volume log
    defaultSpeedOfSound dimensions coefficients speedOfSound hlt⟩

/-- C10 witness: a room with width −1 and positive height/depth. -/
theorem rt60_odd_negative_dims_witness :
    negativeDimensionCount
      (sanitizeDimensions (some ⟨some (-1), some 1, some 1⟩)) % 2 = 1 ∧
    (volumeOf (sanitizeDimensions (some ⟨some (-1), some 1, some 1⟩)) ≤ 0 ∧
     volumeOf (sanitizeDimensions (some ⟨some (-1), some 1, some 1⟩)) < MinVolume ∧
     computeRT60Secs (fun _ => 0) 340 (some ⟨some (-1), some 1, some 1⟩)
       none none = List.replicate 9 0) :=
  ⟨by norm_num [negativeDimensionCount, sanitizeDimensions],
   rt60_odd_negative_dims (fun _ => 0) 340 (some ⟨some (-1), some 1, some 1⟩)
     none none (by norm_num [negativeDimensionCount, sanitizeDimensions])⟩

end Room
